import Mathlib

/-!
Shallow embedding of `src/dataloader.js`: a script that collects client
browser/device metadata, fetches IP geolocation data from ip-api.com,
merges them and POSTs the merged payload to a logging endpoint.

JavaScript host behaviour is modelled explicitly:
- a possibly-absent object field becomes an `Option`;
- JS truthiness on strings (`"" `is falsy) and numbers (`0` is falsy) is
  spelled out at each use site, mirroring the `x ? a : b` and `x || y`
  expressions of the source;
- JS numbers are modelled as `Rat` restricted to finite decimal values
  (the only values the claims evaluate them at), with `toFixed(1)` and
  number-to-string conversion following the ECMAScript algorithms on
  that fragment;
- the two network calls are modelled by passing the transport outcome
  (status code plus decoded body, or a thrown network error) as input;
- a thrown JS `Error` becomes `Except.error` carrying the message string.
-/

namespace DataLoader

/-- JavaScript `String.prototype.includes` on a list of characters:
`jsIncludesAux pat l` is true when `pat` occurs contiguously in `l`. -/
def jsIncludesAux (pat : List Char) : List Char → Bool
  | [] => pat.isEmpty
  | c :: rest => pat.isPrefixOf (c :: rest) || jsIncludesAux pat rest

/-- JavaScript `s.includes(pat)`. -/
def jsIncludes (s pat : String) : Bool :=
  jsIncludesAux pat.toList s.toList

/-- JavaScript `s.toUpperCase()` (the ASCII fragment, which covers every
string the program upper-cases: connection effective types like "4g"). -/
def jsToUpper (s : String) : String :=
  String.mk (s.toList.map Char.toUpper)

/-- JavaScript `s.toLowerCase()` on the ASCII fragment; used to model the
case-insensitive `/.../i` regex test. -/
def jsToLower (s : String) : String :=
  String.mk (s.toList.map Char.toLower)

/-- JavaScript `x || d` for a possibly-absent string `x`: the default is
taken when `x` is `undefined` or falsy (the empty string). -/
def jsOrStr (o : Option String) (d : String) : String :=
  match o with
  | none => d
  | some s => if s = "" then d else s

/-- ECMAScript `Number.prototype.toFixed(1)`: the sign is split off, the
magnitude is rounded to the nearest tenth with ties towards the larger
`n` (round half up on the magnitude), and exactly one fractional digit
is printed. For the magnitude `m / d` the rounded tenth count is
`⌊10 * (m / d) + 1 / 2⌋ = (20 * m + d) / (2 * d)` in `Nat` division. -/
def toFixed1 (x : Rat) : String :=
  let m : Nat := x.num.natAbs
  let d : Nat := x.den
  let n : Nat := (20 * m + d) / (2 * d)
  let core := toString (n / 10) ++ "." ++ toString (n % 10)
  if x.num < 0 then "-" ++ core else core

/-- Pads a digit string on the left with zeros up to width `k`. -/
def padLeftZeros (s : String) (k : Nat) : String :=
  if k ≤ s.length then s
  else String.mk (List.replicate (k - s.length) '0') ++ s

/-- ECMAScript number-to-string conversion, modelled on the fragment of
finite decimal values (every concrete number the program's claims mention
is such a value, and for them the double round-trips to the same shortest
decimal): an integer prints with no fractional part, otherwise the
shortest decimal expansion is printed. -/
def jsNumToString (x : Rat) : String :=
  let m : Nat := x.num.natAbs
  let d : Nat := x.den
  let core :=
    match (List.range 40).find? (fun k => 10 ^ k % d == 0) with
    | none => toString m ++ "/" ++ toString d
    | some k =>
      let n : Nat := m * (10 ^ k / d)
      if k = 0 then toString n
      else toString (n / 10 ^ k) ++ "." ++ padLeftZeros (toString (n % 10 ^ k)) k
  if x.num < 0 then "-" ++ core else core

/-- A JS template-literal placeholder for a possibly-absent number:
`undefined` interpolates as the string "undefined". -/
def jsNumOptToString : Option Rat → String
  | none => "undefined"
  | some x => jsNumToString x

/-- Source lines 12-20: OS classification by substring checks against the
user-agent string, first match wins. -/
def getOperatingSystem (userAgent : String) : String :=
  if jsIncludes userAgent "Win" then "Windows"
  else if jsIncludes userAgent "Android" then "Android"
  else if jsIncludes userAgent "Mac" then "macOS (Apple)"
  else if jsIncludes userAgent "Linux" then "Linux"
  else if jsIncludes userAgent "CrOS" then "Chrome OS"
  else if jsIncludes userAgent "iPhone" || jsIncludes userAgent "iPad" then "iOS (Apple)"
  else "Unknown/Other"

/-- Leftmost match of the regular expression `marker(\d+)` (e.g.
`Chrome\/(\d+)`): at each position, if `marker` occurs followed by at
least one digit the maximal digit run is captured, otherwise the scan
continues at the next position. -/
def extractDigits (marker : List Char) : List Char → Option (List Char)
  | [] => none
  | c :: rest =>
    if marker.isPrefixOf (c :: rest) then
      let digits := ((c :: rest).drop marker.length).takeWhile Char.isDigit
      if digits.isEmpty then extractDigits marker rest else some digits
    else extractDigits marker rest

/-- JavaScript `userAgent.match(regex)?.[1] || ""` for the version
patterns of `getBrowser`. -/
def matchVersion (userAgent marker : String) : String :=
  match extractDigits marker.toList userAgent.toList with
  | some ds => String.mk ds
  | none => ""

/-- Source lines 26-43 of `getBrowser`: the `browser` and `version`
variables after the if/else chain. -/
def getBrowserCore (userAgent : String) : String × String :=
  if jsIncludes userAgent "Chrome" && !jsIncludes userAgent "Edg" then
    ("Chrome", matchVersion userAgent "Chrome/")
  else if jsIncludes userAgent "Firefox" then
    ("Firefox", matchVersion userAgent "Firefox/")
  else if jsIncludes userAgent "Safari" && !jsIncludes userAgent "Chrome" then
    ("Safari", matchVersion userAgent "Version/")
  else if jsIncludes userAgent "Edg" then
    ("Edge", matchVersion userAgent "Edg/")
  else if jsIncludes userAgent "MSIE" || jsIncludes userAgent "Trident" then
    ("Internet Explorer", "")
  else
    ("Unknown", "")

/-- Source lines 25-45: browser classification; a truthy (non-empty)
version string is appended as " (vN)". -/
def getBrowser (userAgent : String) : String :=
  let p := getBrowserCore userAgent
  if p.2 = "" then p.1 else p.1 ++ " (v" ++ p.2 ++ ")"

/-- A `navigator.connection`-style object; each signal may be absent
(`undefined`) and, when present, may still be falsy (`""` or `0`). -/
structure Connection where
  effectiveType : Option String
  downlink : Option Rat
deriving DecidableEq

/-- The ambient browser environment read by `collectClientData`:
user-agent string, the three vendor-prefixed connection objects, screen
metrics, `navigator.language`, and the two host-formatted renderings of
the single capture instant `now` (`toISOString` and the
`toLocaleTimeString` result, both produced by the host). -/
structure Env where
  userAgent : String
  connection : Option Connection
  mozConnection : Option Connection
  webkitConnection : Option Connection
  screenWidth : Nat
  screenHeight : Nat
  language : Option String
  nowISO : String
  nowLocaleFormatted : String
deriving DecidableEq

/-- Source line 54: `navigator.connection || navigator.mozConnection ||
navigator.webkitConnection` — the first present object. -/
def resolveConnection (env : Env) : Option Connection :=
  env.connection <|> env.mozConnection <|> env.webkitConnection

/-- Source line 56: `connection && connection.effectiveType ?
connection.effectiveType.toUpperCase() : 'N/A'`. -/
def connEffectiveLabel : Option Connection → String
  | none => "N/A"
  | some c =>
    match c.effectiveType with
    | none => "N/A"
    | some t => if t = "" then "N/A" else jsToUpper t

/-- Source line 57: `connection && connection.downlink ?
connection.downlink.toFixed(1) + " Mbps" : 'N/A'` (template literal). -/
def connSpeedLabel : Option Connection → String
  | none => "N/A"
  | some c =>
    match c.downlink with
    | none => "N/A"
    | some d => if d = 0 then "N/A" else toFixed1 d ++ " Mbps"

/-- Source line 58: the case-insensitive test
`/Mobi|Android|iPhone|iPad|Windows Phone/i.test(userAgent)`. -/
def isMobileUA (userAgent : String) : Bool :=
  ["mobi", "android", "iphone", "ipad", "windows phone"].any
    (fun p => jsIncludes (jsToLower userAgent) p)

/-- The record returned by `collectClientData` (source lines 61-75). -/
structure ClientProfile where
  name : String
  logTimestamp : String
  os : String
  browser : String
  resolution : String
  deviceType : String
  connectionSpeed : String
  browserLanguage : String
  localTimeFormatted : String
  userAgent : String
deriving DecidableEq

/-- Source lines 52-76: collects all client-side data. The `clientName`
parameter is `Option String`, `none` standing for the JS `undefined`
that triggers the `"Anonymous"` default. -/
def collectClientData (clientName : Option String) (env : Env) : ClientProfile :=
  let userAgent := env.userAgent
  let connection := resolveConnection env
  let effectiveType := connEffectiveLabel connection
  let speed := connSpeedLabel connection
  let isMobile := isMobileUA userAgent
  { name := clientName.getD "Anonymous"
    logTimestamp := env.nowISO
    os := getOperatingSystem userAgent
    browser := getBrowser userAgent
    resolution := toString env.screenWidth ++ "x" ++ toString env.screenHeight
    deviceType := if isMobile then "Mobile/Tablet" else "Desktop"
    connectionSpeed := effectiveType ++ " (" ++ speed ++ ")"
    browserLanguage := jsOrStr env.language "N/A"
    localTimeFormatted := env.nowLocaleFormatted
    userAgent := userAgent }

/-- The decoded JSON body of an ip-api.com response; every field may be
absent. `asField` models the body's `as` field (`as` is a Lean keyword). -/
structure GeoResponse where
  status : Option String
  message : Option String
  query : Option String
  isp : Option String
  asField : Option String
  countryCode : Option String
  regionName : Option String
  city : Option String
  zip : Option String
  lat : Option Rat
  lon : Option Rat
  timezone : Option String
deriving DecidableEq

/-- The normalized record built by `fetchAlternateGeoData` on success
(source lines 93-104). Fields copied from the body may be `undefined`
when the body omits them, hence `Option`; `coords` and `apiSource` are
always plain strings. -/
structure GeoRecord where
  ip : Option String
  org : Option String
  asn : Option String
  countryCode : Option String
  region : Option String
  city : Option String
  zip : Option String
  coords : String
  timezone : Option String
  apiSource : String
deriving DecidableEq

/-- The outcome of the single `fetch(ALTERNATE_IP_API_URL)` call: either
a response with its status code and the result of `response.json()`
(`Except.error` when the body fails to parse), or a thrown network
error with its message. -/
inductive GeoFetchOutcome where
  | success (status : Nat) (body : Except String GeoResponse)
  | networkFailure (msg : String)

/-- Source lines 93-104: the ip-api.com keys mapped to the desired
output format (ip ← query, org ← isp, asn ← as, region ← regionName,
coords ← the template literal combining lat and lon). -/
def mapGeoResponse (geoData : GeoResponse) : GeoRecord :=
  { ip := geoData.query
    org := geoData.isp
    asn := geoData.asField
    countryCode := geoData.countryCode
    region := geoData.regionName
    city := geoData.city
    zip := geoData.zip
    coords := jsNumOptToString geoData.lat ++ "," ++ jsNumOptToString geoData.lon
    timezone := geoData.timezone
    apiSource := "ip-api.com" }

/-- The body of the `try` block of `fetchAlternateGeoData` (source lines
83-108): `response.ok` is status 200-299, a non-success body status
throws `message || 'Alternate API returned failure status.'`. -/
def fetchAlternateGeoDataInner : GeoFetchOutcome → Except String GeoRecord
  | .networkFailure msg => .error msg
  | .success status body =>
    if ¬ (200 ≤ status ∧ status ≤ 299) then
      .error ("HTTP error from ip-api.com! Status: " ++ toString status)
    else
      match body with
      | .error msg => .error msg
      | .ok geoData =>
        if geoData.status = some "success" then
          .ok (mapGeoResponse geoData)
        else
          .error (jsOrStr geoData.message "Alternate API returned failure status.")

/-- Source lines 82-114: any error thrown inside the `try` block is
caught by the function's own `catch` and re-thrown wrapped with the
fixed prefix. -/
def fetchAlternateGeoData (o : GeoFetchOutcome) : Except String GeoRecord :=
  match fetchAlternateGeoDataInner o with
  | .ok r => .ok r
  | .error msg => .error ("Failed to retrieve alternate geolocation data: " ++ msg)

/-- The merged payload `{...clientData, ...geoData}` (source lines
156-159). The two field sets are disjoint, so the spread is exactly the
pair of records. -/
structure Payload where
  client : ClientProfile
  geo : GeoRecord
deriving DecidableEq

/-- The outcome of the transmitter's POST: a response with its status
code, or a thrown network error. -/
inductive PostOutcome where
  | response (status : Nat)
  | networkFailure (msg : String)
deriving DecidableEq

/-- Source lines 120-142: `sendDataToLog` returns `response.ok`
(status 200-299) and converts a thrown transport error to `false`; it
never re-throws. The payload only feeds the request body. -/
def sendDataToLog (_data : Payload) (o : PostOutcome) : Bool :=
  match o with
  | .response status => decide (200 ≤ status ∧ status ≤ 299)
  | .networkFailure _ => false

/-- The observable result of one orchestrator run: the returned value
(`none` models the JS `null`) and the list of payloads passed to
`sendDataToLog` (empty when the transmitter is never called). -/
structure RunTrace where
  result : Option Payload
  transmitterCalls : List Payload
deriving DecidableEq

/-- Source lines 146-176: collect client data, fetch geo data, merge,
send. A resolver failure is caught and the run returns `null` with no
transmitter call; a `false` from the transmitter only changes logging. -/
def runAlternateDataTransfer (clientName : Option String) (env : Env)
    (geo : GeoFetchOutcome) (post : PostOutcome) : RunTrace :=
  let clientData := collectClientData clientName env
  match fetchAlternateGeoData geo with
  | .error _ => { result := none, transmitterCalls := [] }
  | .ok geoData =>
    let fullPayload : Payload := { client := clientData, geo := geoData }
    let _success := sendDataToLog fullPayload post
    { result := some fullPayload, transmitterCalls := [fullPayload] }

/-- All the body fields that the success branch copies verbatim into the
GeoRecord are present (not `undefined`). -/
def GeoResponse.allFieldsPresent (g : GeoResponse) : Prop :=
  g.query.isSome ∧ g.isp.isSome ∧ g.asField.isSome ∧ g.countryCode.isSome ∧
    g.regionName.isSome ∧ g.city.isSome ∧ g.zip.isSome ∧ g.timezone.isSome

/-- Every field of the GeoRecord holds an actual value; `coords` and
`apiSource` are plain strings, so only the copied fields can fail this. -/
def GeoRecord.fullyPopulated (r : GeoRecord) : Prop :=
  r.ip.isSome ∧ r.org.isSome ∧ r.asn.isSome ∧ r.countryCode.isSome ∧
    r.region.isSome ∧ r.city.isSome ∧ r.zip.isSome ∧ r.timezone.isSome

/-- A fetch outcome whose decoded success body carries all the fields the
external-interface description promises (`status`, `query`, `isp`, `as`,
`countryCode`, `regionName`, `city`, `zip`, `timezone`). Failure outcomes
are unconstrained: they abort the run before any payload exists. -/
def GeoFetchOutcome.wellFormed : GeoFetchOutcome → Prop
  | .success _ (.ok body) => body.status = some "success" → body.allFieldsPresent
  | _ => True

/-- A concrete ambient environment for evaluating the orchestrator. -/
def sampleEnv : Env :=
  { userAgent := "Mozilla/5.0 (Linux; Android 13) Chrome/120 Mobile Safari/537.36"
    connection := some { effectiveType := some "4g", downlink := some (mkRat 1025 100) }
    mozConnection := none
    webkitConnection := none
    screenWidth := 1080
    screenHeight := 2400
    language := some "en-US"
    nowISO := "2026-01-01T00:00:00.000Z"
    nowLocaleFormatted := "Thu, 1 Jan 2026, 12:00 AM" }

/-- The success body of the spec's worked example: `{status:"success",
query:"1.2.3.4", isp:"ACME", as:"AS1 ACME", countryCode:"US",
regionName:"CA", city:"X", zip:"90000", lat:1.0, lon:2.0,
timezone:"UTC"}` (`mkRat n 1` is the JS number `n.0`). -/
def sampleSuccessBody : GeoResponse :=
  { status := some "success"
    message := none
    query := some "1.2.3.4"
    isp := some "ACME"
    asField := some "AS1 ACME"
    countryCode := some "US"
    regionName := some "CA"
    city := some "X"
    zip := some "90000"
    lat := some (mkRat 1 1)
    lon := some (mkRat 2 1)
    timezone := some "UTC" }

/-- The GeoRecord that `fetchAlternateGeoData` builds from
`sampleSuccessBody`. -/
def sampleGeoRecord : GeoRecord :=
  { ip := some "1.2.3.4"
    org := some "ACME"
    asn := some "AS1 ACME"
    countryCode := some "US"
    region := some "CA"
    city := some "X"
    zip := some "90000"
    coords := "1,2"
    timezone := some "UTC"
    apiSource := "ip-api.com" }

/-- The failure body of the spec's worked example:
`{status:"fail", message:"invalid query"}`, all other fields absent. -/
def sampleFailBody : GeoResponse :=
  { status := some "fail"
    message := some "invalid query"
    query := none, isp := none, asField := none, countryCode := none
    regionName := none, city := none, zip := none
    lat := none, lon := none, timezone := none }

/-- A transport-OK body whose `status` is `"success"` but which carries
none of the other fields. -/
def emptySuccessBody : GeoResponse :=
  { status := some "success"
    message := none
    query := none, isp := none, asField := none, countryCode := none
    regionName := none, city := none, zip := none
    lat := none, lon := none, timezone := none }

/-- `sampleEnv` with every vendor variant of the connection object
absent. -/
def noConnectionEnv : Env :=
  { sampleEnv with connection := none, mozConnection := none, webkitConnection := none }

/-- The connection object with both signals present but falsy:
`effectiveType` the empty string and `downlink` the number `0`. -/
def falsyConnection : Connection :=
  { effectiveType := some "", downlink := some 0 }

/-- `sampleEnv` with `falsyConnection` as `navigator.connection`. -/
def falsyConnectionEnv : Env :=
  { sampleEnv with connection := some falsyConnection }

/-! Helper lemmas about the substring test. -/

theorem isPrefixOf_self_eq_true (l : List Char) : l.isPrefixOf l = true := by
  induction l with
  | nil => rfl
  | cons c t ih => simp [List.isPrefixOf, ih]

theorem jsIncludesAux_append (p a : List Char) : jsIncludesAux p (a ++ p) = true := by
  induction a with
  | nil =>
    cases p with
    | nil => rfl
    | cons c t => simp [jsIncludesAux, isPrefixOf_self_eq_true]
  | cons c a ih => simp [jsIncludesAux, ih]

theorem jsIncludes_append_right (a b : String) : jsIncludes (a ++ b) b = true := by
  simpa [jsIncludes, String.toList, String.data_append] using
    jsIncludesAux_append b.data a.data

theorem jsIncludes_empty (s : String) : jsIncludes s "" = true := by
  cases s with
  | mk data =>
    cases data with
    | nil => rfl
    | cons c t => simp [jsIncludes, String.toList, jsIncludesAux, List.isPrefixOf]

/-- Claim C2: whenever the geo resolver fails (its fetch outcome makes
`fetchAlternateGeoData` throw), `runAlternateDataTransfer` returns null
and `sendDataToLog` is never called — no payload is sent. -/
theorem resolver_failure_returns_null_and_skips_transmitter
    (clientName : Option String) (env : Env) (geo : GeoFetchOutcome)
    (post : PostOutcome) (e : String)
    (h : fetchAlternateGeoData geo = .error e) :
    (runAlternateDataTransfer clientName env geo post).result = none ∧
    (runAlternateDataTransfer clientName env geo post).transmitterCalls = [] := by
  simp [runAlternateDataTransfer, h]

/-- Witness for C2 at a concrete thrown network error. -/
theorem resolver_failure_returns_null_and_skips_transmitter_witness :
    fetchAlternateGeoData (.networkFailure "fetch failed") =
      .error "Failed to retrieve alternate geolocation data: fetch failed" ∧
    (runAlternateDataTransfer none sampleEnv (.networkFailure "fetch failed")
        (.response 200)).result = none ∧
    (runAlternateDataTransfer none sampleEnv (.networkFailure "fetch failed")
        (.response 200)).transmitterCalls = [] :=
  ⟨rfl, resolver_failure_returns_null_and_skips_transmitter none sampleEnv
    (.networkFailure "fetch failed") (.response 200) _ rfl⟩

/-- Claim C3: when the resolver succeeds but `sendDataToLog` returns
`false`, the orchestrator still completes and returns the full merged
payload (client data merged with geo data). -/
theorem transmit_false_still_returns_merged_payload
    (clientName : Option String) (env : Env) (geo : GeoFetchOutcome)
    (post : PostOutcome) (g : GeoRecord)
    (hgeo : fetchAlternateGeoData geo = .ok g)
    (_hsend : sendDataToLog { client := collectClientData clientName env, geo := g }
        post = false) :
    (runAlternateDataTransfer clientName env geo post).result =
      some { client := collectClientData clientName env, geo := g } := by
  simp [runAlternateDataTransfer, hgeo]

/-- Witness for C3: a successful resolve followed by a 500 from the
logging endpoint still returns the merged payload. -/
theorem transmit_false_still_returns_merged_payload_witness :
    fetchAlternateGeoData (.success 200 (.ok sampleSuccessBody)) = .ok sampleGeoRecord ∧
    sendDataToLog { client := collectClientData none sampleEnv, geo := sampleGeoRecord }
      (.response 500) = false ∧
    (runAlternateDataTransfer none sampleEnv (.success 200 (.ok sampleSuccessBody))
        (.response 500)).result =
      some { client := collectClientData none sampleEnv, geo := sampleGeoRecord } :=
  ⟨rfl, rfl, transmit_false_still_returns_merged_payload none sampleEnv
    (.success 200 (.ok sampleSuccessBody)) (.response 500) sampleGeoRecord rfl rfl⟩

/-- Counterexample to claim C4 as stated: "Windows NT Android" contains
"Android", yet `getOperatingSystem` returns "Windows", because the
Windows check ("Win" substring) fires first. -/
theorem android_with_win_classified_windows :
    jsIncludes "Windows NT Android" "Android" = true ∧
    getOperatingSystem "Windows NT Android" = "Windows" ∧
    getOperatingSystem "Windows NT Android" ≠ "Android" := by decide

/-- Claim C4 as amended: every user-agent string containing "Android"
and not containing "Win" is classified as "Android", regardless of any
other substrings present. -/
theorem android_ua_classified_android (userAgent : String)
    (hA : jsIncludes userAgent "Android" = true)
    (hW : jsIncludes userAgent "Win" = false) :
    getOperatingSystem userAgent = "Android" := by
  simp [getOperatingSystem, hA, hW]

/-- Witness for the amended C4 at a concrete Android user agent. -/
theorem android_ua_classified_android_witness :
    jsIncludes "Linux; Android 13; Mac-like" "Android" = true ∧
    jsIncludes "Linux; Android 13; Mac-like" "Win" = false ∧
    getOperatingSystem "Linux; Android 13; Mac-like" = "Android" :=
  ⟨by decide, by decide,
    android_ua_classified_android "Linux; Android 13; Mac-like" (by decide) (by decide)⟩

/-- Counterexample to claim C5 as stated: "Chrome Edg Firefox" contains
both "Chrome" and "Edg", yet `getBrowser` classifies it as Firefox, not
Edge, because the Firefox branch precedes the Edge branch. -/
theorem chrome_edg_firefox_classified_firefox :
    jsIncludes "Chrome Edg Firefox" "Chrome" = true ∧
    jsIncludes "Chrome Edg Firefox" "Edg" = true ∧
    getBrowser "Chrome Edg Firefox" = "Firefox" ∧
    (getBrowserCore "Chrome Edg Firefox").1 ≠ "Edge" := by decide

/-- Claim C5 as amended: every user-agent string containing both
"Chrome" and "Edg" but not "Firefox" is classified as Edge, never as
Chrome — the Chrome branch excludes "Edg". -/
theorem chrome_and_edg_classified_edge (userAgent : String)
    (hC : jsIncludes userAgent "Chrome" = true)
    (hE : jsIncludes userAgent "Edg" = true)
    (hF : jsIncludes userAgent "Firefox" = false) :
    (getBrowserCore userAgent).1 = "Edge" ∧ (getBrowserCore userAgent).1 ≠ "Chrome" := by
  simp [getBrowserCore, hC, hE, hF]

/-- Witness for the amended C5 at a concrete Edge-on-Chromium agent. -/
theorem chrome_and_edg_classified_edge_witness :
    jsIncludes "Mozilla Chrome/120 Safari Edg/120" "Chrome" = true ∧
    jsIncludes "Mozilla Chrome/120 Safari Edg/120" "Edg" = true ∧
    jsIncludes "Mozilla Chrome/120 Safari Edg/120" "Firefox" = false ∧
    ((getBrowserCore "Mozilla Chrome/120 Safari Edg/120").1 = "Edge" ∧
      (getBrowserCore "Mozilla Chrome/120 Safari Edg/120").1 ≠ "Chrome") :=
  ⟨by decide, by decide, by decide,
    chrome_and_edg_classified_edge "Mozilla Chrome/120 Safari Edg/120"
      (by decide) (by decide) (by decide)⟩

/-- Claim C6: on a transport-OK response carrying the spec's worked
success body, the resolver returns the record with `coords` "1,2",
`apiSource` "ip-api.com", and the fixed renaming ip ← query, org ← isp,
asn ← as, region ← regionName. -/
theorem success_body_mapped_to_geo_record :
    fetchAlternateGeoData (.success 200 (.ok sampleSuccessBody)) = .ok sampleGeoRecord ∧
    sampleGeoRecord.coords = "1,2" ∧
    sampleGeoRecord.apiSource = "ip-api.com" ∧
    sampleGeoRecord.ip = sampleSuccessBody.query ∧
    sampleGeoRecord.org = sampleSuccessBody.isp ∧
    sampleGeoRecord.asn = sampleSuccessBody.asField ∧
    sampleGeoRecord.region = sampleSuccessBody.regionName :=
  ⟨rfl, rfl, rfl, rfl, rfl, rfl, rfl⟩

/-- Claim C8: `sendDataToLog` is a total boolean function of the
transport outcome — it returns `true` exactly on a transport-OK
response (status 200-299) and `false` on any non-OK status or thrown
transport exception, never raising to its caller. -/
theorem send_data_returns_ok_boolean (data : Payload) (o : PostOutcome) :
    sendDataToLog data o = true ↔
      ∃ s, o = .response s ∧ 200 ≤ s ∧ s ≤ 299 := by
  cases o with
  | response s => simp [sendDataToLog]
  | networkFailure m => simp [sendDataToLog]

/-- Claim C9: the network descriptor is "4G (10.3 Mbps)" for a
connection with effectiveType "4g" and downlink 10.25 (`mkRat 1025 100`),
and "N/A (N/A)" when no connection object is exposed. -/
theorem network_descriptor_formatting :
    (collectClientData none sampleEnv).connectionSpeed = "4G (10.3 Mbps)" ∧
    (collectClientData none noConnectionEnv).connectionSpeed = "N/A (N/A)" := by
  decide

/-- Claim C7: on a transport-OK response whose decoded body does not
indicate success, the resolver throws, and the error message contains
the service-provided message when present and the generic fallback
"Alternate API returned failure status." when absent. -/
theorem semantic_failure_error_contains_message (status : Nat) (body : GeoResponse)
    (h1 : 200 ≤ status) (h2 : status ≤ 299)
    (h3 : body.status ≠ some "success") :
    ∃ msg, fetchAlternateGeoData (.success status (.ok body)) = .error msg ∧
      (∀ m, body.message = some m → jsIncludes msg m = true) ∧
      (body.message = none →
        jsIncludes msg "Alternate API returned failure status." = true) := by
  refine ⟨"Failed to retrieve alternate geolocation data: " ++
      jsOrStr body.message "Alternate API returned failure status.", ?_, ?_, ?_⟩
  · simp [fetchAlternateGeoData, fetchAlternateGeoDataInner, h1, h2, h3]
  · intro m hm
    rcases eq_or_ne m "" with rfl | hne
    · exact jsIncludes_empty _
    · rw [hm]
      simp only [jsOrStr, if_neg hne]
      exact jsIncludes_append_right _ _
  · intro hm
    rw [hm]
    exact jsIncludes_append_right _ _

/-- Witness for C7 at the spec's worked failure body
`{status:"fail", message:"invalid query"}` with status 200. -/
theorem semantic_failure_error_contains_message_witness :
    200 ≤ 200 ∧ (200 : Nat) ≤ 299 ∧ sampleFailBody.status ≠ some "success" ∧
    (∃ msg, fetchAlternateGeoData (.success 200 (.ok sampleFailBody)) = .error msg ∧
      (∀ m, sampleFailBody.message = some m → jsIncludes msg m = true) ∧
      (sampleFailBody.message = none →
        jsIncludes msg "Alternate API returned failure status." = true)) :=
  ⟨by decide, by decide, by decide,
    semantic_failure_error_contains_message 200 sampleFailBody
      (by decide) (by decide) (by decide)⟩

/-- Claim C10: a present connection object with a falsy signal — downlink
`0` or effectiveType `""` — yields the "N/A" sentinel for that sub-part
of the network descriptor, exactly as if the signal were absent. -/
theorem falsy_connection_signals_yield_sentinel
    (clientName : Option String) (env : Env) (c : Connection)
    (hc : resolveConnection env = some c) :
    (c.downlink = some 0 →
      (collectClientData clientName env).connectionSpeed =
        connEffectiveLabel (some c) ++ " (N/A)" ∧
      connSpeedLabel (some c) = connSpeedLabel none) ∧
    (c.effectiveType = some "" →
      (collectClientData clientName env).connectionSpeed =
        "N/A (" ++ connSpeedLabel (some c) ++ ")" ∧
      connEffectiveLabel (some c) = connEffectiveLabel none) := by
  constructor
  · intro hd
    constructor
    · simp [collectClientData, hc, connSpeedLabel, hd, String.append_assoc]
    · simp [connSpeedLabel, hd]
  · intro he
    constructor
    · simp [collectClientData, hc, connEffectiveLabel, he, String.append_assoc]
    · simp [connEffectiveLabel, he]

/-- Witness for C10 at the concrete connection with `effectiveType ""`
and `downlink 0`: both sub-parts degrade to the sentinel. -/
theorem falsy_connection_signals_yield_sentinel_witness :
    resolveConnection falsyConnectionEnv = some falsyConnection ∧
    falsyConnection.downlink = some 0 ∧
    falsyConnection.effectiveType = some "" ∧
    ((collectClientData none falsyConnectionEnv).connectionSpeed =
        connEffectiveLabel (some falsyConnection) ++ " (N/A)" ∧
      connSpeedLabel (some falsyConnection) = connSpeedLabel none) ∧
    ((collectClientData none falsyConnectionEnv).connectionSpeed =
        "N/A (" ++ connSpeedLabel (some falsyConnection) ++ ")" ∧
      connEffectiveLabel (some falsyConnection) = connEffectiveLabel none) :=
  ⟨rfl, rfl, rfl,
    (falsy_connection_signals_yield_sentinel none falsyConnectionEnv
      falsyConnection rfl).1 rfl,
    (falsy_connection_signals_yield_sentinel none falsyConnectionEnv
      falsyConnection rfl).2 rfl⟩

/-- A successful resolve from a well-formed outcome yields a fully
populated GeoRecord: each copied field is present and `coords` and
`apiSource` are strings by construction. -/
theorem fetch_ok_fullyPopulated (geo : GeoFetchOutcome) (hwf : geo.wellFormed)
    (r : GeoRecord) (h : fetchAlternateGeoData geo = .ok r) :
    r.fullyPopulated := by
  have hin : fetchAlternateGeoDataInner geo = .ok r := by
    unfold fetchAlternateGeoData at h
    cases hin0 : fetchAlternateGeoDataInner geo with
    | error e => rw [hin0] at h; exact absurd h (by simp)
    | ok r0 =>
      rw [hin0] at h
      obtain rfl : r0 = r := by simpa using h
      rfl
  clear h
  cases geo with
  | networkFailure m => simp [fetchAlternateGeoDataInner] at hin
  | success status body =>
    cases body with
    | error m =>
      simp only [fetchAlternateGeoDataInner] at hin
      split at hin <;> simp at hin
    | ok geoData =>
      simp only [GeoFetchOutcome.wellFormed] at hwf
      simp only [fetchAlternateGeoDataInner] at hin
      split at hin
      · simp at hin
      · by_cases hstat : geoData.status = some "success"
        · rw [if_pos hstat] at hin
          have hA := hwf hstat
          have hrec : mapGeoResponse geoData = r := by simpa using hin
          rw [← hrec]
          simp only [GeoResponse.allFieldsPresent] at hA
          simp only [GeoRecord.fullyPopulated, mapGeoResponse]
          simpa using hA
        · rw [if_neg hstat] at hin
          simp at hin

/-- Counterexample to claim C1 as stated: a transport-OK response whose
body says `status:"success"` but omits `query` produces a merged payload
handed to the transmitter whose `ip` field is `undefined` — neither a
real value nor a "not available" sentinel. -/
theorem missing_success_field_reaches_transmitter :
    ((runAlternateDataTransfer none sampleEnv (.success 200 (.ok emptySuccessBody))
        (.response 200)).transmitterCalls.map fun p => p.geo.ip) =
      ([none] : List (Option String)) ∧
    ((runAlternateDataTransfer none sampleEnv (.success 200 (.ok emptySuccessBody))
        (.response 200)).transmitterCalls.all fun p => p.geo.ip.isSome) = false := by
  decide

/-- Claim C1 as amended: every field of the ClientProfile is populated
by construction (each derivation degrades to a sentinel string), and
whenever the success body carries all the expected fields, every field
of the GeoRecord in the merged payload handed to the transmitter — and
in the returned payload — is populated as well. -/
theorem merged_payload_fields_populated
    (clientName : Option String) (env : Env) (geo : GeoFetchOutcome)
    (post : PostOutcome) (hwf : geo.wellFormed) :
    (∀ p ∈ (runAlternateDataTransfer clientName env geo post).transmitterCalls,
      p.geo.fullyPopulated) ∧
    (∀ p, (runAlternateDataTransfer clientName env geo post).result = some p →
      p.geo.fullyPopulated) := by
  cases hres : fetchAlternateGeoData geo with
  | error e => simp [runAlternateDataTransfer, hres]
  | ok r =>
    have hr := fetch_ok_fullyPopulated geo hwf r hres
    constructor
    · intro p hp
      simp only [runAlternateDataTransfer, hres, List.mem_singleton] at hp
      rw [hp]
      exact hr
    · intro p hp
      simp only [runAlternateDataTransfer, hres, Option.some_inj] at hp
      rw [← hp]
      exact hr

/-- Witness for the amended C1 at the spec's worked success body. -/
theorem merged_payload_fields_populated_witness :
    (GeoFetchOutcome.success 200 (.ok sampleSuccessBody)).wellFormed ∧
    ((∀ p ∈ (runAlternateDataTransfer none sampleEnv
        (.success 200 (.ok sampleSuccessBody)) (.response 200)).transmitterCalls,
      p.geo.fullyPopulated) ∧
    (∀ p, (runAlternateDataTransfer none sampleEnv
        (.success 200 (.ok sampleSuccessBody)) (.response 200)).result = some p →
      p.geo.fullyPopulated)) :=
  ⟨by simp [GeoFetchOutcome.wellFormed, GeoResponse.allFieldsPresent, sampleSuccessBody],
   merged_payload_fields_populated none sampleEnv
     (.success 200 (.ok sampleSuccessBody)) (.response 200)
     (by simp [GeoFetchOutcome.wellFormed, GeoResponse.allFieldsPresent, sampleSuccessBody])⟩

end DataLoader
